import Mathlib

/-!
Verification of the Close extraction-and-merge pipeline (src/models.py)
against its natural-language specification.

The Python source is shallowly embedded: raw API rows (Python dicts of JSON
values) become association lists over a `Json` value type, fallible code
(KeyError, AttributeError, ValueError, NotImplementedError, query failures)
returns `Except PyError`, the BigQuery staging/canonical tables become lists
of rows, and the compaction SQL (ROW_NUMBER over a partition, keep row 1)
becomes an explicit ranking function over the staged list.
-/

/-- JSON values as returned by the Close API and manipulated by the
transforms.  Mirrors the Python object model: `null` is Python None,
`obj` is a dict whose entries keep insertion order. -/
inductive Json where
  | null : Json
  | bool (b : Bool) : Json
  | num (n : Int) : Json
  | str (s : String) : Json
  | arr (elems : List Json) : Json
  | obj (entries : List (String × Json)) : Json

/-- The Python exceptions the embedded code can raise. -/
inductive PyError where
  | keyError (k : String) : PyError
  | valueError (msg : String) : PyError
  | typeError (msg : String) : PyError
  | attributeError (msg : String) : PyError
  | notImplementedError (msg : String) : PyError
  | notFound (msg : String) : PyError
deriving DecidableEq, Repr

/-- A raw or transformed row: a Python dict, i.e. an insertion-ordered
association list from field name to JSON value. -/
abbrev Row := List (String × Json)

/-- `row.get(k)` — defaulting dict lookup, absent keys give None. -/
def pyGet (row : Row) (k : String) : Json :=
  (row.lookup k).getD Json.null

/-- `row[k]` — dict subscription, raising KeyError when the key is absent. -/
def pyItem (row : Row) (k : String) : Except PyError Json :=
  match row.lookup k with
  | some v => Except.ok v
  | none => Except.error (PyError.keyError k)

/-- Python truthiness of a JSON value (`if x:`): None, False, 0, empty
string, empty list and empty dict are falsy. -/
def truthy : Json → Bool
  | Json.null => false
  | Json.bool b => b
  | Json.num n => n != 0
  | Json.str s => !s.isEmpty
  | Json.arr l => !l.isEmpty
  | Json.obj l => !l.isEmpty

/-- `x.get(k)` on an arbitrary JSON value: only dicts have `.get`;
anything else raises AttributeError, as CPython does. -/
def jsonGet (j : Json) (k : String) : Except PyError Json :=
  match j with
  | Json.obj kvs => Except.ok (pyGet kvs k)
  | _ => Except.error (PyError.attributeError k)

/-- `x[k]` on an arbitrary JSON value: only dicts are subscriptable by a
string key; a present key gives its value, an absent one KeyError. -/
def jsonItem (j : Json) (k : String) : Except PyError Json :=
  match j with
  | Json.obj kvs => pyItem kvs k
  | _ => Except.error (PyError.typeError k)

/-- `for x in j` — iterating a JSON value; only arrays are iterated by the
embedded transforms (the source only ever loops over API-provided lists). -/
def jsonElems (j : Json) : Except PyError (List Json) :=
  match j with
  | Json.arr l => Except.ok l
  | _ => Except.error (PyError.typeError "not iterable")

/-- A Python list comprehension over fallible element expressions: evaluate
left to right, the first exception aborts the whole comprehension. -/
def mapME (f : α → Except PyError β) : List α → Except PyError (List β)
  | [] => Except.ok []
  | x :: xs => do
    let y ← f x
    let ys ← mapME f xs
    Except.ok (y :: ys)

theorem except_bind_err (e : PyError) (f : α → Except PyError β) :
    (Except.error e >>= f) = (Except.error e : Except PyError β) := rfl

theorem except_bind_ok (a : α) (f : α → Except PyError β) :
    (Except.ok a >>= f) = f a := rfl

/-- `needle` is a prefix of `hay` (character lists). -/
def listPrefixOf : List Char → List Char → Bool
  | [], _ => true
  | _ :: _, [] => false
  | a :: as, b :: bs => a == b && listPrefixOf as bs

/-- `needle` occurs as a contiguous substring of `hay` (character lists). -/
def hasSub (needle : List Char) : List Char → Bool
  | [] => needle.isEmpty
  | c :: rest => listPrefixOf needle (c :: rest) || hasSub needle rest

/-- Python `needle in hay` on strings: substring containment. -/
def pyIn (needle hay : String) : Bool :=
  hasSub needle.data hay.data

/-- JSON string escaping as performed by `json.dumps` (quote and backslash
escaped; the embedded claims never exercise control characters or
non-ASCII, which dumps would additionally escape). -/
def dumpsString (s : String) : String :=
  "\"" ++ String.mk (s.data.foldr
    (fun c acc =>
      if c == '"' then '\\' :: '"' :: acc
      else if c == '\\' then '\\' :: '\\' :: acc
      else c :: acc) []) ++ "\""

mutual

/-- `json.dumps(v)` with default separators, the re-encoding applied to
custom-field values by the transforms. -/
def dumps : Json → String
  | Json.null => "null"
  | Json.bool true => "true"
  | Json.bool false => "false"
  | Json.num n => toString n
  | Json.str s => dumpsString s
  | Json.arr l => "[" ++ String.intercalate ", " (dumpsList l) ++ "]"
  | Json.obj kvs => "\x7b" ++ String.intercalate ", " (dumpsObj kvs) ++ "\x7d"

def dumpsList : List Json → List String
  | [] => []
  | j :: rest => dumps j :: dumpsList rest

def dumpsObj : List (String × Json) → List String
  | [] => []
  | (k, v) :: rest => (dumpsString k ++ ": " ++ dumps v) :: dumpsObj rest

end

example : pyIn "custom.cf" "xcustom.cf1" = true := by decide
example : listPrefixOf "custom.cf".data "xcustom.cf1".data = false := by decide
example : dumps (Json.str "v") = "\"v\"" := rfl
example : dumps (Json.num 3) = "3" := rfl
example : pyGet [("a", Json.num 1)] "b" = Json.null := rfl

/-!
## Compaction (`Close._update`, models.py lines 148-159)

The SQL rewrites the canonical table as
`SELECT * EXCEPT (row_num) FROM (SELECT *, ROW_NUMBER() OVER (PARTITION BY
p_key ORDER BY incre_key DESC) AS row_num FROM stage) WHERE row_num = 1`.
A staged row is a value of the partition column(s), a value of the ordering
column, and the remaining payload.  `ROW_NUMBER` with a descending order is
embedded with a deterministic tie-break on the original row position (SQL
leaves ties arbitrary; any fixed choice realises the statement), and the
`EXCEPT (row_num)` projection is the final `map Prod.snd` that drops the
ranking artifact.
-/

/-- A row of the staging table as seen by the compaction query: the
primary-key column(s) `pk`, the increment-key column `ik` (a timestamp,
ordered), and the remaining payload columns. -/
structure SRow where
  pk : String
  ik : Nat
  payload : Int
deriving DecidableEq, Repr

/-- Strict "sorts earlier in the ORDER BY incre_key DESC" order between
enumerated staged rows: larger increment key first, original position
breaking ties. -/
def better (a b : Nat × SRow) : Bool :=
  b.2.ik < a.2.ik || (a.2.ik == b.2.ik && a.1 < b.1)

/-- `a` precedes `b` inside the same partition of the window. -/
def beats (a b : Nat × SRow) : Bool :=
  a.2.pk == b.2.pk && better a b

/-- `ROW_NUMBER()` of the enumerated row `b` within its partition. -/
def rowNum (e : List (Nat × SRow)) (b : Nat × SRow) : Nat :=
  1 + (e.filter (fun a => beats a b)).length

/-- The compaction query: keep the rows ranked first in their partition and
drop the ranking artifact column. -/
def compact (staging : List SRow) : List SRow :=
  ((staging.enum.filter (fun b => rowNum staging.enum b == 1)).map Prod.snd)

/-- The rows of `rows` in the primary-key group `k`. -/
def pkGroup (rows : List SRow) (k : String) : List SRow :=
  rows.filter (fun r => r.pk == k)

/-- Staging and canonical table for one entity. -/
structure Tables where
  staging : List SRow
  canonical : List SRow
deriving DecidableEq, Repr

/-- One execution of `Close._update`: read the staging table, replace the
canonical table with the compacted projection; staging is untouched. -/
def compactStep (t : Tables) : Tables :=
  { staging := t.staging, canonical := compact t.staging }

theorem better_iff (a b : Nat × SRow) :
    better a b = true ↔ (b.2.ik < a.2.ik ∨ (a.2.ik = b.2.ik ∧ a.1 < b.1)) := by
  simp [better]

theorem better_irrefl (a : Nat × SRow) : better a a = false := by
  simp [better]

theorem better_asymm {a b : Nat × SRow} (h : better a b = true) : better b a = false := by
  rw [better_iff] at h
  cases hb : better b a
  · rfl
  · rw [better_iff] at hb; omega

theorem better_neg_trans {a b c : Nat × SRow} (h1 : better a b = false)
    (h2 : better b c = false) : better a c = false := by
  cases hc : better a c
  · rfl
  · rw [better_iff] at hc
    have h1p : ¬ (b.2.ik < a.2.ik ∨ (a.2.ik = b.2.ik ∧ a.1 < b.1)) := by
      rw [← better_iff]; simp [h1]
    have h2p : ¬ (c.2.ik < b.2.ik ∨ (b.2.ik = c.2.ik ∧ b.1 < c.1)) := by
      rw [← better_iff]; simp [h2]
    omega

/-- Selecting the first row of a partition: the fold Lean uses to exhibit
the surviving row of each primary-key group. -/
def pickBest : List (Nat × SRow) → Option (Nat × SRow)
  | [] => none
  | x :: rest =>
    match pickBest rest with
    | none => some x
    | some b => if better b x then some b else some x

theorem pickBest_cons_ne_none (x : Nat × SRow) (l : List (Nat × SRow)) :
    pickBest (x :: l) ≠ none := by
  rw [pickBest]
  cases pickBest l with
  | none => simp
  | some b => by_cases h : better b x = true <;> simp [h]

theorem pickBest_spec : ∀ (l : List (Nat × SRow)), l ≠ [] →
    ∃ m, pickBest l = some m ∧ m ∈ l ∧ ∀ a ∈ l, better a m = false := by
  intro l
  induction l with
  | nil => intro h; exact absurd rfl h
  | cons x rest ih =>
    intro _
    cases hr : pickBest rest with
    | none =>
      have hrest : rest = [] := by
        cases rest with
        | nil => rfl
        | cons y t => exact absurd hr (pickBest_cons_ne_none y t)
      refine ⟨x, ?_, List.mem_cons_self _ _, ?_⟩
      · rw [pickBest, hr]
      · intro a ha
        rcases List.mem_cons.mp ha with h | h
        · subst h; exact better_irrefl _
        · rw [hrest] at h; cases h
    | some b =>
      have hne : rest ≠ [] := by
        intro h; subst h; rw [pickBest] at hr; cases hr
      obtain ⟨m, hm, hmem, hall⟩ := ih hne
      rw [hr] at hm
      injection hm with hm
      subst hm
      cases hbx : better b x with
      | true =>
        refine ⟨b, ?_, List.mem_cons_of_mem _ hmem, ?_⟩
        · rw [pickBest, hr]; simp [hbx]
        · intro a ha
          rcases List.mem_cons.mp ha with h | h
          · subst h; exact better_asymm hbx
          · exact hall a h
      | false =>
        refine ⟨x, ?_, List.mem_cons_self _ _, ?_⟩
        · rw [pickBest, hr]; simp [hbx]
        · intro a ha
          rcases List.mem_cons.mp ha with h | h
          · subst h; exact better_irrefl _
          · exact better_neg_trans (hall a h) hbx

theorem mem_iff_mem_enum {st : List SRow} {s : SRow} :
    s ∈ st ↔ ∃ p, p ∈ st.enum ∧ p.2 = s := by
  constructor
  · intro h
    obtain ⟨i, hi⟩ := List.mem_iff_getElem?.mp h
    exact ⟨(i, s), List.mem_enum_iff_getElem?.mpr hi, rfl⟩
  · rintro ⟨p, hp, rfl⟩
    exact List.mem_iff_getElem?.mpr ⟨p.1, List.mem_enum_iff_getElem?.mp hp⟩

theorem enum_nodup (st : List SRow) : st.enum.Nodup :=
  List.Nodup.of_map Prod.fst (List.nodup_enum_map_fst st)

theorem enum_fst_inj {st : List SRow} {p q : Nat × SRow} (hp : p ∈ st.enum)
    (hq : q ∈ st.enum) (h : p.1 = q.1) : p = q := by
  apply List.inj_on_of_nodup_map (List.nodup_enum_map_fst st) hp hq h

theorem nodup_all_eq_singleton {α : Type} {l : List α} {m : α} (hn : l.Nodup)
    (hm : m ∈ l) (ha : ∀ x ∈ l, x = m) : l = [m] := by
  cases l with
  | nil => cases hm
  | cons x t =>
    have hx : x = m := ha x (List.mem_cons_self _ _)
    subst hx
    cases t with
    | nil => rfl
    | cons y t' =>
      have hy : y = x := ha y (List.mem_cons_of_mem _ (List.mem_cons_self _ _))
      subst hy
      exact absurd (List.mem_cons_self _ _) (List.nodup_cons.mp hn).1

theorem survives_iff {st : List SRow} {p : Nat × SRow} :
    (rowNum st.enum p == 1) = true ↔ ∀ a ∈ st.enum, beats a p = false := by
  constructor
  · intro h a ha
    have h1 : rowNum st.enum p = 1 := by simpa using h
    have hlen : (st.enum.filter (fun a => beats a p)).length = 0 := by
      rw [rowNum] at h1; omega
    have hnil := List.length_eq_zero.mp hlen
    have := List.filter_eq_nil_iff.mp hnil a ha
    simpa using this
  · intro h
    have hnil : st.enum.filter (fun a => beats a p) = [] :=
      List.filter_eq_nil_iff.mpr (fun a ha => by simp [h a ha])
    simp [rowNum, hnil]

theorem compact_mem_iff {st : List SRow} {r : SRow} :
    r ∈ compact st ↔ ∃ p, p ∈ st.enum ∧ p.2 = r ∧ ∀ a ∈ st.enum, beats a p = false := by
  rw [compact]
  simp only [List.mem_map, List.mem_filter]
  constructor
  · rintro ⟨p, ⟨hp, hs⟩, rfl⟩
    exact ⟨p, hp, rfl, survives_iff.mp hs⟩
  · rintro ⟨p, hp, rfl, hall⟩
    exact ⟨p, ⟨hp, survives_iff.mpr hall⟩, rfl⟩

theorem compact_subset {st : List SRow} {r : SRow} (h : r ∈ compact st) : r ∈ st := by
  obtain ⟨p, hp, hpr, _⟩ := compact_mem_iff.mp h
  exact mem_iff_mem_enum.mpr ⟨p, hp, hpr⟩

/-- C1: after `Close._update` the canonical table holds, for every
primary-key group present in staging, exactly one row; that row comes from
staging and its increment-key value is the maximum within its group (the
ranking artifact `row_num` is dropped by the `map Prod.snd` projection, so
it is not part of the result). Groups absent from staging are absent from
the canonical table. -/
theorem compact_dedup_correct (st : List SRow) (k : String) :
    (pkGroup st k = [] → pkGroup (compact st) k = []) ∧
    (pkGroup st k ≠ [] →
      ∃ r, pkGroup (compact st) k = [r] ∧ r ∈ st ∧ r.pk = k ∧
        ∀ s ∈ st, s.pk = k → s.ik ≤ r.ik) := by
  constructor
  · intro hnil
    have hnone : ∀ r ∈ st, ¬((fun r : SRow => r.pk == k) r = true) :=
      List.filter_eq_nil_iff.mp hnil
    apply List.filter_eq_nil_iff.mpr
    intro r hr
    exact hnone r (compact_subset hr)
  · intro hne
    have hl : ∃ p, p ∈ st.enum.filter (fun a => a.2.pk == k) := by
      obtain ⟨r0, hr0⟩ := List.exists_mem_of_ne_nil _ hne
      have ⟨hr0st, hr0k⟩ := List.mem_filter.mp hr0
      obtain ⟨p0, hp0, hp0r⟩ := mem_iff_mem_enum.mp hr0st
      exact ⟨p0, List.mem_filter.mpr ⟨hp0, by simp [hp0r, hr0k]⟩⟩
    obtain ⟨p1, hp1⟩ := hl
    obtain ⟨m, _, hmeml, hbest⟩ :=
      pickBest_spec (st.enum.filter (fun a => a.2.pk == k)) (List.ne_nil_of_mem hp1)
    have hmenum : m ∈ st.enum := (List.mem_filter.mp hmeml).1
    have hmk : m.2.pk = k := by
      have := (List.mem_filter.mp hmeml).2
      exact eq_of_beq (by simpa using this)
    have hsurv : ∀ a ∈ st.enum, beats a m = false := by
      intro a ha
      by_cases hpk : (a.2.pk == m.2.pk) = true
      · have hak : (a.2.pk == k) = true := by
          have := eq_of_beq hpk; rw [hmk] at this; simp [this]
        have hal : a ∈ st.enum.filter (fun a => a.2.pk == k) :=
          List.mem_filter.mpr ⟨ha, hak⟩
        simp [beats, hpk, hbest a hal]
      · simp [beats, Bool.eq_false_iff.mpr hpk]
    refine ⟨m.2, ?_, mem_iff_mem_enum.mpr ⟨m, hmenum, rfl⟩, hmk, ?_⟩
    · -- the canonical group is exactly the singleton of the survivor
      have hgrp : pkGroup (compact st) k =
          ((st.enum.filter (fun b => rowNum st.enum b == 1)).filter
            (fun p => p.2.pk == k)).map Prod.snd := by
        rw [pkGroup, compact, List.filter_map]
        rfl
      have hmS : m ∈ (st.enum.filter (fun b => rowNum st.enum b == 1)).filter
          (fun p => p.2.pk == k) := by
        refine List.mem_filter.mpr ⟨List.mem_filter.mpr ⟨hmenum, survives_iff.mpr hsurv⟩, ?_⟩
        simp [hmk]
      have hT : (st.enum.filter (fun b => rowNum st.enum b == 1)).filter
          (fun p => p.2.pk == k) = [m] := by
        apply nodup_all_eq_singleton ((List.Nodup.filter _ (enum_nodup st)).filter _) hmS
        intro x hx
        have hxS := List.mem_filter.mp hx
        have hxsurv := List.mem_filter.mp hxS.1
        have hxk : x.2.pk = k := eq_of_beq (by simpa using hxS.2)
        have hxall : ∀ a ∈ st.enum, beats a x = false := survives_iff.mp hxsurv.2
        have hpkeq : (x.2.pk == m.2.pk) = true := by simp [hxk, hmk]
        have h1 : better x m = false := by
          have := hsurv x hxsurv.1
          rw [beats, hpkeq] at this
          simpa using this
        have h2 : better m x = false := by
          have := hxall m hmenum
          rw [beats] at this
          have hpkeq' : (m.2.pk == x.2.pk) = true := by simp [hxk, hmk]
          rw [hpkeq'] at this
          simpa using this
        have e1 : ¬ (m.2.ik < x.2.ik ∨ (x.2.ik = m.2.ik ∧ x.1 < m.1)) := by
          rw [← better_iff]; simp [h1]
        have e2 : ¬ (x.2.ik < m.2.ik ∨ (m.2.ik = x.2.ik ∧ m.1 < x.1)) := by
          rw [← better_iff]; simp [h2]
        exact enum_fst_inj hxsurv.1 hmenum (by omega)
      rw [hgrp, hT]
      rfl
    · intro s hs hsk
      obtain ⟨p, hpenum, hps⟩ := mem_iff_mem_enum.mp hs
      have hb := hsurv p hpenum
      have hpkeq : (p.2.pk == m.2.pk) = true := by simp [hps, hsk, hmk]
      rw [beats, hpkeq] at hb
      have hbet : better p m = false := by simpa using hb
      have := better_iff p m
      rw [hbet] at this
      have hnot : ¬ (m.2.ik < p.2.ik ∨ (p.2.ik = m.2.ik ∧ p.1 < m.1)) := by
        simp at this; omega
      rw [hps] at hnot
      omega

/-- Witness for C1 at the concrete staging content of the specification
example: two versions of key "a" and one row of key "b". -/
theorem compact_dedup_correct_witness :
    pkGroup ([⟨"a", 1, 1⟩, ⟨"a", 5, 2⟩, ⟨"b", 3, 3⟩] : List SRow) "a" ≠ [] ∧
    (∃ r, pkGroup (compact ([⟨"a", 1, 1⟩, ⟨"a", 5, 2⟩, ⟨"b", 3, 3⟩] : List SRow)) "a" = [r] ∧
      r ∈ ([⟨"a", 1, 1⟩, ⟨"a", 5, 2⟩, ⟨"b", 3, 3⟩] : List SRow) ∧ r.pk = "a" ∧
      ∀ s ∈ ([⟨"a", 1, 1⟩, ⟨"a", 5, 2⟩, ⟨"b", 3, 3⟩] : List SRow), s.pk = "a" → s.ik ≤ r.ik) :=
  ⟨by decide, (compact_dedup_correct [⟨"a", 1, 1⟩, ⟨"a", 5, 2⟩, ⟨"b", 3, 3⟩] "a").2 (by decide)⟩

/-- C2: compaction is idempotent.  `Close._update` reads only the staging
table and replaces the canonical table, so its state transition leaves
staging unchanged and a second run recomputes the identical canonical
table: running it twice equals running it once. -/
theorem compact_idempotent (t : Tables) :
    compactStep (compactStep t) = compactStep t ∧ (compactStep t).staging = t.staging :=
  ⟨rfl, rfl⟩

/-!
## Concurrent windowed fetcher (`AsyncGetter._get_async`, models.py 82-89)

The fetcher probes `total_results`, computes `pages = range(0, count,
LIMIT)`, creates one page request per offset, gathers them (asyncio.gather
returns results in task order) and flattens the per-page row lists.  The
network is abstracted as the probe result and a pure `fetchPage` function
from offset to returned rows.
-/

/-- The module-level page size `LIMIT = 100`. -/
def LIMIT : Nat := 100

/-- Python `range(start, stop, step)` for a positive step. -/
def pyRange (start stop step : Nat) : List Nat :=
  if _h : 0 < step ∧ start < stop then start :: pyRange (start + step) stop step
  else []
termination_by stop - start
decreasing_by omega

/-- `AsyncGetter._get_async` with probe result `totalResults`: fan out one
request per offset of `range(0, totalResults, LIMIT)` and concatenate the
page results in offset order. -/
def getAsync (totalResults : Nat) (fetchPage : Nat → List Row) : List Row :=
  ((pyRange 0 totalResults LIMIT).map fetchPage).flatten

theorem pyRange_eq_map (start stop : Nat) :
    pyRange start stop LIMIT =
      (List.range ((stop - start + (LIMIT - 1)) / LIMIT)).map (fun i => start + i * LIMIT) := by
  by_cases h : start < stop
  · rw [pyRange, dif_pos (⟨by decide, h⟩ : 0 < LIMIT ∧ start < stop)]
    rw [pyRange_eq_map (start + LIMIT) stop]
    have hc : (stop - start + (LIMIT - 1)) / LIMIT =
        ((stop - (start + LIMIT) + (LIMIT - 1)) / LIMIT) + 1 := by
      simp only [LIMIT]; omega
    rw [hc, List.range_succ_eq_map, List.map_cons, List.map_map]
    refine congrArg₂ List.cons (by simp) ?_
    apply List.map_congr_left
    intro a _
    simp only [Function.comp, LIMIT]
    omega
  · rw [pyRange, dif_neg (fun hh => h hh.2)]
    have hz : (stop - start + (LIMIT - 1)) / LIMIT = 0 := by
      simp only [LIMIT]; omega
    rw [hz]
    rfl
termination_by stop - start
decreasing_by simp only [LIMIT]; omega

theorem pyRange_length (stop : Nat) :
    (pyRange 0 stop LIMIT).length = (stop + (LIMIT - 1)) / LIMIT := by
  rw [pyRange_eq_map]
  simp

theorem pyRange_mem_iff (stop o : Nat) :
    o ∈ pyRange 0 stop LIMIT ↔ (o % LIMIT = 0 ∧ o < stop) := by
  rw [pyRange_eq_map]
  simp only [List.mem_map, List.mem_range]
  constructor
  · rintro ⟨i, hi, rfl⟩
    simp only [LIMIT] at *
    omega
  · rintro ⟨hmod, hlt⟩
    refine ⟨o / LIMIT, ?_, ?_⟩ <;> simp only [LIMIT] at * <;> omega

/-- C5: given probe result `totalResults = N` and page size `LIMIT`, the
concurrent windowed fetcher issues exactly `ceil(N / LIMIT)` page requests,
one per multiple of `LIMIT` below `N`, and the merged output is the
concatenation of the per-page row lists, so the merged row count is the sum
of the per-page row counts. -/
theorem fanout_complete (N : Nat) (fetchPage : Nat → List Row) :
    (pyRange 0 N LIMIT).length = (N + (LIMIT - 1)) / LIMIT ∧
    (∀ o, o ∈ pyRange 0 N LIMIT ↔ (o % LIMIT = 0 ∧ o < N)) ∧
    getAsync N fetchPage = ((pyRange 0 N LIMIT).map fetchPage).flatten ∧
    (getAsync N fetchPage).length =
      (((pyRange 0 N LIMIT).map fetchPage).map List.length).sum :=
  ⟨pyRange_length N, fun o => pyRange_mem_iff N o, rfl,
    by rw [getAsync, List.length_flatten]⟩

/-- Witness for C5 at the specification example: `total_results = 250` with
page size 100 gives exactly the three offsets 0, 100, 200. -/
theorem fanout_complete_witness :
    pyRange 0 250 LIMIT = [0, 100, 200] ∧
    (pyRange 0 250 LIMIT).length = (250 + (LIMIT - 1)) / LIMIT ∧
    (100 ∈ pyRange 0 250 LIMIT ↔ (100 % LIMIT = 0 ∧ 100 < 250)) :=
  ⟨by rw [pyRange_eq_map]; rfl, (fanout_complete 250 (fun _ => [])).1,
    (fanout_complete 250 (fun _ => [])).2.1 100⟩

/-!
## Watermark resolution (`get_time_range`, models.py 22-33)

`get_time_range(model, _start, _end)` parses both bounds with
`datetime.strptime(_, "%Y-%m-%d")` when both are truthy strings, and
otherwise queries the canonical table for `MAX(incre_key)` and pairs it
with the module-level `NOW` captured once at process start.  The BigQuery
call is abstracted as its outcome: `Except.error` when the query fails
(for instance the canonical table does not exist), `Except.ok none` when
the table exists but is empty (SQL `MAX` over no rows is NULL, Python
`None`), and `Except.ok (some v)` when the maximum increment value is `v`.
-/

/-- A calendar date as produced by `datetime.strptime(s, "%Y-%m-%d")`. -/
structure CalDate where
  year : Nat
  month : Nat
  day : Nat
deriving DecidableEq, Repr

/-- Proleptic Gregorian leap-year rule used by `datetime`. -/
def leapYear (y : Nat) : Bool :=
  (y % 4 == 0 && y % 100 != 0) || y % 400 == 0

def daysInMonth (y m : Nat) : Nat :=
  if m == 2 then (if leapYear y then 29 else 28)
  else if m == 4 || m == 6 || m == 9 || m == 11 then 30
  else 31

/-- Split a character list at every occurrence of the separator. -/
def splitOnChar (sep : Char) : List Char → List (List Char)
  | [] => [[]]
  | c :: rest =>
    if c == sep then [] :: splitOnChar sep rest
    else
      match splitOnChar sep rest with
      | [] => [[c]]
      | g :: gs => (c :: g) :: gs

def allDigits (l : List Char) : Bool :=
  !l.isEmpty && l.all Char.isDigit

def digitsToNat (l : List Char) : Nat :=
  l.foldl (fun n c => n * 10 + (c.toNat - 48)) 0

/-- `datetime.strptime(s, "%Y-%m-%d")`.  CPython compiles the format to a
regex matched against the whole string: `%Y` is exactly four digit
characters, `%m` and `%d` are one or two digit characters, the month must
be 1..12, the day 1..31 and valid for the month, and the year nonzero
(`datetime` MINYEAR is 1; four digits bound it by 9999).  Anything else
raises ValueError.  The regex digit class also matches non-ASCII Unicode
decimal digits; this embedding covers the ASCII universe, and the theorem
characterizing the exact failure set carries an explicit ASCII hypothesis
for that reason (a parse accepted by this model is accepted by CPython
with the same value). -/
def strptimeYmd (s : String) : Except PyError CalDate :=
  match splitOnChar '-' s.data with
  | [ys, ms, ds] =>
    if allDigits ys && allDigits ms && allDigits ds
        && ys.length == 4
        && (ms.length == 1 || ms.length == 2)
        && (ds.length == 1 || ds.length == 2) then
      let y := digitsToNat ys
      let m := digitsToNat ms
      let d := digitsToNat ds
      if 1 ≤ y && 1 ≤ m && m ≤ 12 && 1 ≤ d && d ≤ daysInMonth y m then
        Except.ok ⟨y, m, d⟩
      else Except.error (PyError.valueError s)
    else Except.error (PyError.valueError s)
  | _ => Except.error (PyError.valueError s)

/-- ASCII scope for the parser theorems: CPython additionally accepts
Unicode decimal digits that this embedding does not model. -/
def asciiStr (s : String) : Bool :=
  s.data.all (fun c => c.toNat < 128)

def asciiOpt : Option String → Bool
  | none => true
  | some s => asciiStr s

/-- Calendar order on parsed dates (used only to state the missing
start-before-end check). -/
def dateLe (a b : CalDate) : Bool :=
  a.year < b.year ||
    (a.year == b.year &&
      (a.month < b.month || (a.month == b.month && a.day ≤ b.day)))

/-- A value of the resolved window: a parsed calendar date, an opaque
timestamp (the table maximum or `NOW`), or Python None / SQL NULL. -/
inductive TVal where
  | date (d : CalDate)
  | stamp (n : Nat)
  | null
deriving DecidableEq, Repr

/-- Truthiness of an optional request string (`if _start and _end`):
absent and empty strings are falsy. -/
def strTruthy : Option String → Bool
  | some s => !s.isEmpty
  | none => false

/-- `get_time_range` of models.py lines 22-33. -/
def get_time_range (queryMaxIncre : Except PyError (Option TVal))
    (startArg endArg : Option String) (now : TVal) :
    Except PyError (TVal × TVal) :=
  if strTruthy startArg && strTruthy endArg then do
    let s ← strptimeYmd (startArg.getD "")
    let e ← strptimeYmd (endArg.getD "")
    Except.ok (TVal.date s, TVal.date e)
  else do
    let w ← queryMaxIncre
    Except.ok (w.getD TVal.null, now)

/-- `Except.isOk` restricted to the embedded error type. -/
def isOkB : Except PyError α → Bool
  | Except.ok _ => true
  | Except.error _ => false

example : strptimeYmd "2021-08-01" = Except.ok ⟨2021, 8, 1⟩ := rfl
example : isOkB (strptimeYmd "2021-13-01") = false := rfl
example : isOkB (strptimeYmd "not-a-date") = false := rfl
example : isOkB (strptimeYmd "2021-02-29") = false := rfl
example : strptimeYmd "2020-02-29" = Except.ok ⟨2020, 2, 29⟩ := rfl
example : isOkB (strptimeYmd "999-01-01") = false := rfl
example : isOkB (strptimeYmd "2021-008-01") = false := rfl
example : isOkB (strptimeYmd "2021-08-011") = false := rfl
example : isOkB (strptimeYmd "10000-01-01") = false := rfl
example : isOkB (strptimeYmd "0000-01-01") = false := rfl
example : strptimeYmd "0999-01-01" = Except.ok ⟨999, 1, 1⟩ := rfl
example : strptimeYmd "2021-8-1" = Except.ok ⟨2021, 8, 1⟩ := rfl

/-- C3: with both explicit calendar-date bounds given, window resolution
returns exactly the window parsed from those two dates, unmodified; with
neither given, it returns the window from the canonical table's
`MAX(incre_key)` to the run-start time `NOW` captured once per run. -/
theorem resolve_window (q : Except PyError (Option TVal)) (now : TVal) :
    (∀ s e ds de, strTruthy (some s) = true → strTruthy (some e) = true →
        strptimeYmd s = Except.ok ds → strptimeYmd e = Except.ok de →
        get_time_range q (some s) (some e) now =
          Except.ok (TVal.date ds, TVal.date de)) ∧
    (∀ v, q = Except.ok (some v) →
        get_time_range q none none now = Except.ok (v, now)) := by
  constructor
  · intro s e ds de hs he hps hpe
    rw [get_time_range]
    rw [if_pos (by simp [hs, he])]
    simp [hps, hpe, except_bind_ok]
  · intro v hq
    rw [get_time_range]
    rw [if_neg (by simp [strTruthy])]
    rw [hq]
    rfl

/-- Witness for C3: the explicit window of the specification example and an
automatic window from a non-empty table. -/
theorem resolve_window_witness :
    get_time_range (Except.ok (some (TVal.stamp 3))) (some "2021-08-01")
        (some "2021-08-31") (TVal.stamp 9)
      = Except.ok (TVal.date ⟨2021, 8, 1⟩, TVal.date ⟨2021, 8, 31⟩) ∧
    get_time_range (Except.ok (some (TVal.stamp 3))) none none (TVal.stamp 9)
      = Except.ok (TVal.stamp 3, TVal.stamp 9) :=
  ⟨(resolve_window (Except.ok (some (TVal.stamp 3))) (TVal.stamp 9)).1
      "2021-08-01" "2021-08-31" ⟨2021, 8, 1⟩ ⟨2021, 8, 31⟩ rfl rfl rfl rfl,
    (resolve_window (Except.ok (some (TVal.stamp 3))) (TVal.stamp 9)).2
      (TVal.stamp 3) rfl⟩

/-- C4 counterexample: explicit bounds start = "2021-08-31",
end = "2021-08-01" satisfy start ≥ end, yet resolution succeeds and returns
the inverted window unmodified, so no InvalidWindow is raised; and with no
explicit bounds an empty canonical table (MAX is NULL) yields a successful
window with a null start rather than a NoWatermark failure. -/
theorem resolve_missing_checks_cex :
    get_time_range (Except.ok (some (TVal.stamp 0))) (some "2021-08-31")
        (some "2021-08-01") (TVal.stamp 7)
      = Except.ok (TVal.date ⟨2021, 8, 31⟩, TVal.date ⟨2021, 8, 1⟩) ∧
    dateLe ⟨2021, 8, 1⟩ ⟨2021, 8, 31⟩ = true ∧
    get_time_range (Except.ok none) none none (TVal.stamp 7)
      = Except.ok (TVal.null, TVal.stamp 7) :=
  ⟨rfl, rfl, rfl⟩

/-- C4 (amended): for ASCII bound strings, window resolution fails exactly
when both explicit bounds are given (truthy) and one of them fails to parse
as a calendar date, or when the bounds are not both given and the
`MAX(incre_key)` query itself fails; no start-versus-end ordering check is
performed, and with no bounds an empty canonical table yields a successful
window with a null start.  The ASCII hypotheses scope the statement to the
inputs on which `strptimeYmd` is an exact embedding of CPython strptime,
which additionally accepts non-ASCII Unicode digit strings. -/
theorem resolve_error_conditions (q : Except PyError (Option TVal))
    (startArg endArg : Option String) (now : TVal)
    (_hstart : asciiOpt startArg = true) (_hend : asciiOpt endArg = true) :
    ((isOkB (get_time_range q startArg endArg now) = false) ↔
      (if strTruthy startArg && strTruthy endArg then
        isOkB (strptimeYmd (startArg.getD "")) = false ∨
          isOkB (strptimeYmd (endArg.getD "")) = false
      else isOkB q = false)) ∧
    (q = Except.ok none → (strTruthy startArg && strTruthy endArg) = false →
      get_time_range q startArg endArg now = Except.ok (TVal.null, now)) := by
  constructor
  · rw [get_time_range]
    by_cases hc : (strTruthy startArg && strTruthy endArg) = true
    · rw [if_pos hc, if_pos hc]
      cases hs : strptimeYmd (startArg.getD "") with
      | error e1 => simp [except_bind_err, isOkB]
      | ok d1 =>
        cases he : strptimeYmd (endArg.getD "") with
        | error e2 => simp [except_bind_ok, except_bind_err, isOkB]
        | ok d2 => simp [except_bind_ok, isOkB]
    · rw [if_neg hc, if_neg hc]
      cases q with
      | error e1 => simp [except_bind_err, isOkB]
      | ok w => simp [except_bind_ok, isOkB]
  · intro hq hc
    rw [get_time_range, if_neg (by simp [hc]), hq]
    rfl

/-- Witness for C4: a failing parse with explicit ASCII bounds, a failing
query with no bounds, and the empty-table success, each at concrete
inputs. -/
theorem resolve_error_conditions_witness :
    get_time_range (Except.ok none) none none (TVal.stamp 5)
      = Except.ok (TVal.null, TVal.stamp 5) ∧
    isOkB (get_time_range (Except.error (PyError.notFound "Close.Leads"))
        none none (TVal.stamp 5)) = false ∧
    isOkB (get_time_range (Except.ok (some (TVal.stamp 1))) (some "999-01-01")
        (some "2021-08-31") (TVal.stamp 5)) = false :=
  ⟨(resolve_error_conditions (Except.ok none) none none (TVal.stamp 5) rfl rfl).2 rfl rfl,
    ((resolve_error_conditions (Except.error (PyError.notFound "Close.Leads"))
        none none (TVal.stamp 5) rfl rfl).1).mpr (by rfl),
    ((resolve_error_conditions (Except.ok (some (TVal.stamp 1))) (some "999-01-01")
        (some "2021-08-31") (TVal.stamp 5) (by decide) (by decide)).1).mpr
      (by exact Or.inl rfl)⟩

/-!
## Row transformers (models.py 244-296, 329-350, 376-390, 451-493, 529-552)

Each transform is a Python list comprehension building one output dict per
raw row.  Bracket subscription `row[k]` raises KeyError on a missing key;
`row.get(k)` defaults to None.  Dict-literal values are evaluated in source
order, and a conditional expression evaluates its condition first.
-/

/-- One entry of `Leads.transform`'s nested phones projection. -/
def leadsPhone (phone : Json) : Except PyError Json := do
  let pf ← jsonGet phone "phone_formatted"
  let ph ← jsonGet phone "phone"
  let ty ← jsonGet phone "type"
  let co ← jsonGet phone "country"
  Except.ok (Json.obj [("phone_formatted", pf), ("phone", ph), ("type", ty), ("country", co)])

/-- One entry of `Leads.transform`'s nested emails projection. -/
def leadsEmail (email : Json) : Except PyError Json := do
  let ty ← jsonGet email "type"
  let em ← jsonGet email "email"
  Except.ok (Json.obj [("type", ty), ("email", em)])

/-- One entry of `Leads.transform`'s contacts projection: the phones and
emails conditionals map the raw sequence when it is truthy and emit an
empty list when it is absent, None or empty. -/
def leadsContact (contact : Json) : Except PyError Json := do
  let phonesRaw ← jsonGet contact "phones"
  let phones ←
    if truthy phonesRaw then do
      let l ← jsonElems phonesRaw
      let l2 ← mapME leadsPhone l
      Except.ok (Json.arr l2)
    else Except.ok (Json.arr [])
  let nameV ← jsonGet contact "name"
  let updBy ← jsonGet contact "updated_by"
  let emailsRaw ← jsonGet contact "emails"
  let emails ←
    if truthy emailsRaw then do
      let l ← jsonElems emailsRaw
      let l2 ← mapME leadsEmail l
      Except.ok (Json.arr l2)
    else Except.ok (Json.arr [])
  let dU ← jsonGet contact "date_updated"
  let dN ← jsonGet contact "display_name"
  let dC ← jsonGet contact "date_created"
  let lid ← jsonGet contact "lead_id"
  let cb ← jsonGet contact "created_by"
  let ti ← jsonGet contact "title"
  let ci ← jsonGet contact "id"
  Except.ok (Json.obj [("phones", phones), ("name", nameV), ("updated_by", updBy),
    ("emails", emails), ("date_updated", dU), ("display_name", dN),
    ("date_created", dC), ("lead_id", lid), ("created_by", cb), ("title", ti),
    ("id", ci)])

/-- `Leads.transform` on one raw row: `id` and `date_updated` use bracket
subscription (KeyError when missing), everything else defaults to None;
the contacts conditional yields an empty list when the raw field is absent
or empty. -/
def leadsTransformRow (row : Row) : Except PyError Row := do
  let i ← pyItem row "id"
  let du ← pyItem row "date_updated"
  let contactsRaw := pyGet row "contacts"
  let contacts ←
    if truthy contactsRaw then do
      let l ← jsonElems contactsRaw
      let l2 ← mapME leadsContact l
      Except.ok (Json.arr l2)
    else Except.ok (Json.arr [])
  Except.ok [("id", i), ("date_updated", du),
    ("display_name", pyGet row "display_name"),
    ("updated_by", pyGet row "updated_by"),
    ("status_id", pyGet row "status_id"),
    ("created_by", pyGet row "created_by"),
    ("custom_lead_owner", pyGet row "custom_lead_owner"),
    ("organization_id", pyGet row "organization_id"),
    ("date_created", pyGet row "date_created"),
    ("contacts", contacts)]

def leadsTransform (rows : List Row) : Except PyError (List Row) :=
  mapME leadsTransformRow rows

/-- The repeated custom-fields projection shared verbatim by
`CustomActivities.transform` and `Opportunities.transform`: one
`(key, value)` pair per raw dict entry whose key contains the substring
"custom.cf" (Python `"custom.cf" in key`), the value re-encoded with
`json.dumps` whatever its original type. -/
def customFieldsOf (row : Row) : Json :=
  Json.arr ((row.filter (fun kv => pyIn "custom.cf" kv.1)).map
    (fun kv => Json.obj [("key", Json.str kv.1), ("value", Json.str (dumps kv.2))]))

/-- `CustomActivities.transform` on one raw row: `id`, `date_created` and
`date_updated` use bracket subscription; the primary key `lead_id` uses a
defaulting `.get`. -/
def customActivitiesTransformRow (row : Row) : Except PyError Row := do
  let i ← pyItem row "id"
  let dc ← pyItem row "date_created"
  let du ← pyItem row "date_updated"
  Except.ok [("id", i), ("date_created", dc), ("date_updated", du),
    ("lead_id", pyGet row "lead_id"),
    ("user_id", pyGet row "user_id"),
    ("custom_activity_type_id", pyGet row "custom_activity_type_id"),
    ("_type", pyGet row "_type"),
    ("status", pyGet row "status"),
    ("custom_fields", customFieldsOf row)]

def customActivitiesTransform (rows : List Row) : Except PyError (List Row) :=
  mapME customActivitiesTransformRow rows

/-- `Users.transform` on one raw row: every field, the primary key `id` and
the increment key `date_updated` included, uses a defaulting `.get`, so
this transform never raises. -/
def usersTransformRow (row : Row) : Row :=
  [("email", pyGet row "email"), ("id", pyGet row "id"),
    ("first_name", pyGet row "first_name"), ("last_name", pyGet row "last_name"),
    ("date_updated", pyGet row "date_updated"),
    ("last_used_timezone", pyGet row "last_used_timezone"),
    ("email_verified_at", pyGet row "email_verified_at"),
    ("date_created", pyGet row "date_created"), ("image", pyGet row "image")]

def usersTransform (rows : List Row) : List Row :=
  rows.map usersTransformRow

/-- `Opportunities.transform` on one raw row.  The Python dict literal
names `annualized_value` twice with the same expression; a dict keeps one
entry at the first position, which is what is emitted here. -/
def opportunitiesTransformRow (row : Row) : Except PyError Row := do
  let i ← pyItem row "id"
  let du ← pyItem row "date_updated"
  Except.ok [("id", i), ("date_updated", du),
    ("updated_by", pyGet row "updated_by"),
    ("created_by", pyGet row "created_by"),
    ("organization_id", pyGet row "organization_id"),
    ("contact_name", pyGet row "contact_name"),
    ("lead_id", pyGet row "lead_id"),
    ("expected_value", pyGet row "expected_value"),
    ("status_display_name", pyGet row "status_display_name"),
    ("date_created", pyGet row "date_created"),
    ("annualized_value", pyGet row "annualized_value"),
    ("status_id", pyGet row "status_id"),
    ("status_type", pyGet row "status_type"),
    ("value", pyGet row "value"),
    ("value_currency", pyGet row "value_currency"),
    ("note", pyGet row "note"),
    ("value_period", pyGet row "value_period"),
    ("status_label", pyGet row "status_label"),
    ("lead_name", pyGet row "lead_name"),
    ("created_by_name", pyGet row "created_by_name"),
    ("updated_by_name", pyGet row "updated_by_name"),
    ("user_name", pyGet row "user_name"),
    ("annualized_expected_value", pyGet row "annualized_expected_value"),
    ("value_formatted", pyGet row "value_formatted"),
    ("user_id", pyGet row "user_id"),
    ("contact_id", pyGet row "contact_id"),
    ("date_won", pyGet row "date_won"),
    ("date_lost", pyGet row "date_lost"),
    ("custom_fields", customFieldsOf row)]

def opportunitiesTransform (rows : List Row) : Except PyError (List Row) :=
  mapME opportunitiesTransformRow rows

/-- One entry of `CustomFields.transform`'s fields projection: every field
uses bracket subscription; the raw key read is `is_shared`, emitted under
the schema name `is_share`. -/
def customFieldsField (field : Json) : Except PyError Json := do
  let i ← jsonItem field "id"
  let n ← jsonItem field "name"
  let rq ← jsonItem field "required"
  let ty ← jsonItem field "type"
  let ct ← jsonItem field "converting_to_type"
  let amv ← jsonItem field "accepts_multiple_values"
  let ish ← jsonItem field "is_shared"
  Except.ok (Json.obj [("id", i), ("name", n), ("required", rq), ("type", ty),
    ("converting_to_type", ct), ("accepts_multiple_values", amv), ("is_share", ish)])

/-- `CustomFields.transform` on one raw row: every top-level field,
including the repeated `fields`, uses bracket subscription, so an absent
`fields` raises KeyError rather than producing an empty sequence. -/
def customFieldsTransformRow (row : Row) : Except PyError Row := do
  let i ← pyItem row "id"
  let n ← pyItem row "name"
  let o ← pyItem row "organization_id"
  let dc ← pyItem row "date_created"
  let du ← pyItem row "date_updated"
  let ac ← pyItem row "api_create_only"
  let fraw ← pyItem row "fields"
  let fl ← jsonElems fraw
  let fs ← mapME customFieldsField fl
  Except.ok [("id", i), ("name", n), ("organization_id", o), ("date_created", dc),
    ("date_updated", du), ("api_create_only", ac), ("fields", Json.arr fs)]

def customFieldsTransform (rows : List Row) : Except PyError (List Row) :=
  mapME customFieldsTransformRow rows

example : customActivitiesTransformRow
    [("id", Json.str "a"), ("date_created", Json.str "c"), ("date_updated", Json.str "u"),
     ("custom.cf1", Json.num 2)]
  = Except.ok [("id", Json.str "a"), ("date_created", Json.str "c"),
     ("date_updated", Json.str "u"), ("lead_id", Json.null), ("user_id", Json.null),
     ("custom_activity_type_id", Json.null), ("_type", Json.null), ("status", Json.null),
     ("custom_fields", Json.arr [Json.obj [("key", Json.str "custom.cf1"),
       ("value", Json.str "2")]])] := rfl

example : leadsTransformRow [("date_updated", Json.str "u")]
  = Except.error (PyError.keyError "id") := rfl

/-- C7 counterexample: the Users transform accepts the empty raw row, which
is missing both the primary key `id` and the increment key `date_updated`,
and silently emits it with null keys instead of failing. -/
theorem users_transform_null_keys_cex :
    usersTransform [[]] = [[("email", Json.null), ("id", Json.null),
      ("first_name", Json.null), ("last_name", Json.null), ("date_updated", Json.null),
      ("last_used_timezone", Json.null), ("email_verified_at", Json.null),
      ("date_created", Json.null), ("image", Json.null)]] := rfl

/-- C7 (amended): Leads, Opportunities and CustomFields read their required
keys with bracket subscription, so a missing primary or increment key fails
the row with KeyError; but Users reads every field, both keys included,
with defaulting lookups, and CustomActivities reads its primary key
`lead_id` with a defaulting lookup, so those rows are silently emitted with
a null key instead of failing. -/
theorem transform_required_policy :
    (∀ row : Row, row.lookup "id" = none →
      leadsTransformRow row = Except.error (PyError.keyError "id")) ∧
    (∀ (row : Row) (i : Json), row.lookup "id" = some i →
      row.lookup "date_updated" = none →
      leadsTransformRow row = Except.error (PyError.keyError "date_updated")) ∧
    (∀ row : Row, row.lookup "id" = none →
      opportunitiesTransformRow row = Except.error (PyError.keyError "id")) ∧
    (∀ (row : Row) (i : Json), row.lookup "id" = some i →
      row.lookup "date_updated" = none →
      opportunitiesTransformRow row = Except.error (PyError.keyError "date_updated")) ∧
    (∀ row : Row, row.lookup "id" = none →
      customFieldsTransformRow row = Except.error (PyError.keyError "id")) ∧
    (∀ (row : Row) (i n o dc : Json), row.lookup "id" = some i →
      row.lookup "name" = some n → row.lookup "organization_id" = some o →
      row.lookup "date_created" = some dc → row.lookup "date_updated" = none →
      customFieldsTransformRow row = Except.error (PyError.keyError "date_updated")) ∧
    (∀ (row : Row) (i : Json), row.lookup "id" = some i →
      row.lookup "date_created" = none →
      customActivitiesTransformRow row = Except.error (PyError.keyError "date_created")) ∧
    (∀ row : Row, row.lookup "id" = none →
      (usersTransformRow row).lookup "id" = some Json.null) ∧
    (∀ row : Row, row.lookup "date_updated" = none →
      (usersTransformRow row).lookup "date_updated" = some Json.null) ∧
    (∀ (row : Row) (i dc du : Json), row.lookup "id" = some i →
      row.lookup "date_created" = some dc → row.lookup "date_updated" = some du →
      row.lookup "lead_id" = none →
      ∃ out, customActivitiesTransformRow row = Except.ok out ∧
        out.lookup "lead_id" = some Json.null) := by
  refine ⟨?_, ?_, ?_, ?_, ?_, ?_, ?_, ?_, ?_, ?_⟩
  · intro row h
    simp [leadsTransformRow, pyItem, h, except_bind_err]
  · intro row i h1 h2
    simp [leadsTransformRow, pyItem, h1, h2, except_bind_ok, except_bind_err]
  · intro row h
    simp [opportunitiesTransformRow, pyItem, h, except_bind_err]
  · intro row i h1 h2
    simp [opportunitiesTransformRow, pyItem, h1, h2, except_bind_ok, except_bind_err]
  · intro row h
    simp [customFieldsTransformRow, pyItem, h, except_bind_err]
  · intro row i n o dc h1 h2 h3 h4 h5
    simp [customFieldsTransformRow, pyItem, h1, h2, h3, h4, h5,
      except_bind_ok, except_bind_err]
  · intro row i h1 h2
    simp [customActivitiesTransformRow, pyItem, h1, h2, except_bind_ok, except_bind_err]
  · intro row h
    simp [usersTransformRow, pyGet, h, List.lookup]
  · intro row h
    simp [usersTransformRow, pyGet, h, List.lookup]
  · intro row i dc du h1 h2 h3 h4
    have hrow : customActivitiesTransformRow row = Except.ok
        [("id", i), ("date_created", dc), ("date_updated", du),
         ("lead_id", pyGet row "lead_id"), ("user_id", pyGet row "user_id"),
         ("custom_activity_type_id", pyGet row "custom_activity_type_id"),
         ("_type", pyGet row "_type"), ("status", pyGet row "status"),
         ("custom_fields", customFieldsOf row)] := by
      simp [customActivitiesTransformRow, pyItem, h1, h2, h3, except_bind_ok]
    exact ⟨_, hrow, by simp [List.lookup, pyGet, h4]⟩

/-- Witness for C7 at concrete rows: a Leads row missing `id` fails, a
Users row missing `id` is emitted with a null key, a CustomActivities row
with the three bracket keys but no `lead_id` is emitted with a null key. -/
theorem transform_required_policy_witness :
    leadsTransformRow [("date_updated", Json.str "u"), ("display_name", Json.str "d")]
      = Except.error (PyError.keyError "id") ∧
    leadsTransformRow [("id", Json.str "a")]
      = Except.error (PyError.keyError "date_updated") ∧
    (usersTransformRow [("email", Json.str "e")]).lookup "id" = some Json.null ∧
    (∃ out, customActivitiesTransformRow [("id", Json.str "a"),
        ("date_created", Json.str "c"), ("date_updated", Json.str "u")]
      = Except.ok out ∧ out.lookup "lead_id" = some Json.null) :=
  ⟨transform_required_policy.1 [("date_updated", Json.str "u"),
      ("display_name", Json.str "d")] rfl,
    transform_required_policy.2.1 [("id", Json.str "a")] (Json.str "a") rfl rfl,
    transform_required_policy.2.2.2.2.2.2.2.1 [("email", Json.str "e")] rfl,
    transform_required_policy.2.2.2.2.2.2.2.2.2 [("id", Json.str "a"),
      ("date_created", Json.str "c"), ("date_updated", Json.str "u")]
      (Json.str "a") (Json.str "c") (Json.str "u") rfl rfl rfl rfl⟩

/-- C8 counterexample: a CustomFields raw row with every scalar field but
no `fields` key makes the transform fail with KeyError instead of emitting
an empty repeated sequence. -/
theorem custom_fields_missing_repeated_cex :
    customFieldsTransformRow [("id", Json.str "a"), ("name", Json.str "n"),
      ("organization_id", Json.str "o"), ("date_created", Json.str "c"),
      ("date_updated", Json.str "u"), ("api_create_only", Json.bool true)]
      = Except.error (PyError.keyError "fields") := rfl

/-- Any successful Leads output carries its `contacts` as a sequence, in
every path of the transform (truthy and falsy contacts alike). -/
theorem leads_ok_contacts_arr {row out : Row}
    (h : leadsTransformRow row = Except.ok out) :
    ∃ l, out.lookup "contacts" = some (Json.arr l) := by
  rw [leadsTransformRow] at h
  simp only [Bind.bind, Except.bind] at h
  repeat' split at h
  all_goals cases h
  all_goals exact ⟨_, rfl⟩

/-- Any successful contact output is a dict whose `phones` and `emails`
are sequences, in every path of the projection. -/
theorem leads_contact_ok_arr {c j : Json} (h : leadsContact c = Except.ok j) :
    ∃ out l1 l2, j = Json.obj out ∧ out.lookup "phones" = some (Json.arr l1) ∧
      out.lookup "emails" = some (Json.arr l2) := by
  rw [leadsContact] at h
  simp only [Bind.bind, Except.bind] at h
  repeat' split at h
  all_goals cases h
  all_goals exact ⟨_, _, _, rfl, rfl, rfl⟩

/-- Any successful CustomFields output carries its `fields` as a
sequence. -/
theorem custom_fields_ok_arr {row out : Row}
    (h : customFieldsTransformRow row = Except.ok out) :
    ∃ l, out.lookup "fields" = some (Json.arr l) := by
  rw [customFieldsTransformRow] at h
  simp only [Bind.bind, Except.bind] at h
  repeat' split at h
  all_goals cases h
  exact ⟨_, rfl⟩

/-- Any successful CustomActivities output carries its `custom_fields` as
a sequence. -/
theorem ca_ok_custom_fields_arr {row out : Row}
    (h : customActivitiesTransformRow row = Except.ok out) :
    ∃ l, out.lookup "custom_fields" = some (Json.arr l) := by
  rw [customActivitiesTransformRow] at h
  simp only [Bind.bind, Except.bind] at h
  repeat' split at h
  all_goals cases h
  exact ⟨_, rfl⟩

/-- Any successful Opportunities output carries its `custom_fields` as a
sequence. -/
theorem opp_ok_custom_fields_arr {row out : Row}
    (h : opportunitiesTransformRow row = Except.ok out) :
    ∃ l, out.lookup "custom_fields" = some (Json.arr l) := by
  rw [opportunitiesTransformRow] at h
  simp only [Bind.bind, Except.bind] at h
  repeat' split at h
  all_goals cases h
  exact ⟨_, rfl⟩

/-- C8 (amended): every repeated field of a successfully transformed row
is a sequence and never null, on every success path — Leads contacts,
contact phones and emails, CustomFields fields, and the custom-fields
projections of CustomActivities and Opportunities — and for Leads an
absent or empty raw field yields exactly the empty sequence; but for
CustomFields the repeated `fields` is read with bracket subscription, so
an absent raw field fails the transform with KeyError instead of yielding
an empty sequence. -/
theorem repeated_fields_policy :
    (∀ (row out : Row), leadsTransformRow row = Except.ok out →
      ∃ l, out.lookup "contacts" = some (Json.arr l)) ∧
    (∀ (c j : Json), leadsContact c = Except.ok j →
      ∃ out l1 l2, j = Json.obj out ∧ out.lookup "phones" = some (Json.arr l1) ∧
        out.lookup "emails" = some (Json.arr l2)) ∧
    (∀ (row out : Row), customFieldsTransformRow row = Except.ok out →
      ∃ l, out.lookup "fields" = some (Json.arr l)) ∧
    (∀ (row out : Row), customActivitiesTransformRow row = Except.ok out →
      ∃ l, out.lookup "custom_fields" = some (Json.arr l)) ∧
    (∀ (row out : Row), opportunitiesTransformRow row = Except.ok out →
      ∃ l, out.lookup "custom_fields" = some (Json.arr l)) ∧
    (∀ (row : Row) (i du : Json), row.lookup "id" = some i →
      row.lookup "date_updated" = some du → truthy (pyGet row "contacts") = false →
      ∃ out, leadsTransformRow row = Except.ok out ∧
        out.lookup "contacts" = some (Json.arr [])) ∧
    (∀ kvs : Row, truthy (pyGet kvs "phones") = false →
      truthy (pyGet kvs "emails") = false →
      ∃ out, leadsContact (Json.obj kvs) = Except.ok (Json.obj out) ∧
        out.lookup "phones" = some (Json.arr []) ∧
        out.lookup "emails" = some (Json.arr [])) ∧
    (∀ row : Row, ∃ l, customFieldsOf row = Json.arr l) ∧
    (∀ (row : Row) (i n o dc du ac : Json), row.lookup "id" = some i →
      row.lookup "name" = some n → row.lookup "organization_id" = some o →
      row.lookup "date_created" = some dc → row.lookup "date_updated" = some du →
      row.lookup "api_create_only" = some ac → row.lookup "fields" = none →
      customFieldsTransformRow row = Except.error (PyError.keyError "fields")) := by
  refine ⟨fun row out h => leads_ok_contacts_arr h,
    fun c j h => leads_contact_ok_arr h,
    fun row out h => custom_fields_ok_arr h,
    fun row out h => ca_ok_custom_fields_arr h,
    fun row out h => opp_ok_custom_fields_arr h, ?_, ?_, ?_, ?_⟩
  · intro row i du h1 h2 h3
    have hrow : leadsTransformRow row = Except.ok
        [("id", i), ("date_updated", du),
         ("display_name", pyGet row "display_name"),
         ("updated_by", pyGet row "updated_by"),
         ("status_id", pyGet row "status_id"),
         ("created_by", pyGet row "created_by"),
         ("custom_lead_owner", pyGet row "custom_lead_owner"),
         ("organization_id", pyGet row "organization_id"),
         ("date_created", pyGet row "date_created"),
         ("contacts", Json.arr [])] := by
      simp [leadsTransformRow, pyItem, h1, h2, h3, except_bind_ok]
    exact ⟨_, hrow, by simp [List.lookup]⟩
  · intro kvs h1 h2
    have hc : leadsContact (Json.obj kvs) = Except.ok (Json.obj
        [("phones", Json.arr []), ("name", pyGet kvs "name"),
         ("updated_by", pyGet kvs "updated_by"), ("emails", Json.arr []),
         ("date_updated", pyGet kvs "date_updated"),
         ("display_name", pyGet kvs "display_name"),
         ("date_created", pyGet kvs "date_created"),
         ("lead_id", pyGet kvs "lead_id"), ("created_by", pyGet kvs "created_by"),
         ("title", pyGet kvs "title"), ("id", pyGet kvs "id")]) := by
      simp [leadsContact, jsonGet, h1, h2, except_bind_ok]
    exact ⟨_, hc, by simp [List.lookup], by simp [List.lookup]⟩
  · intro row
    exact ⟨_, rfl⟩
  · intro row i n o dc du ac h1 h2 h3 h4 h5 h6 h7
    simp [customFieldsTransformRow, pyItem, h1, h2, h3, h4, h5, h6, h7,
      except_bind_ok, except_bind_err]

/-- Witness for C8 at concrete rows: a successful Leads transform with a
non-empty contacts list has a sequence there, a Leads row with a null
contacts field yields the empty sequence, and a contact with absent phones
and empty emails yields empty sequences for both. -/
theorem repeated_fields_policy_witness :
    (∃ l, ([("id", Json.str "a"), ("date_updated", Json.str "u"),
        ("display_name", Json.null), ("updated_by", Json.null),
        ("status_id", Json.null), ("created_by", Json.null),
        ("custom_lead_owner", Json.null), ("organization_id", Json.null),
        ("date_created", Json.null),
        ("contacts", Json.arr [Json.obj [("phones", Json.arr []),
          ("name", Json.null), ("updated_by", Json.null), ("emails", Json.arr []),
          ("date_updated", Json.null), ("display_name", Json.null),
          ("date_created", Json.null), ("lead_id", Json.null),
          ("created_by", Json.null), ("title", Json.null), ("id", Json.null)]])]
        : Row).lookup "contacts" = some (Json.arr l)) ∧
    (∃ out, leadsTransformRow [("id", Json.str "a"), ("date_updated", Json.str "u"),
        ("contacts", Json.null)] = Except.ok out ∧
      out.lookup "contacts" = some (Json.arr [])) ∧
    (∃ out, leadsContact (Json.obj [("emails", Json.arr []), ("name", Json.str "n")])
        = Except.ok (Json.obj out) ∧
      out.lookup "phones" = some (Json.arr []) ∧
      out.lookup "emails" = some (Json.arr [])) :=
  ⟨repeated_fields_policy.1 [("id", Json.str "a"), ("date_updated", Json.str "u"),
      ("contacts", Json.arr [Json.obj []])] _ rfl,
    repeated_fields_policy.2.2.2.2.2.1 [("id", Json.str "a"),
      ("date_updated", Json.str "u"), ("contacts", Json.null)]
      (Json.str "a") (Json.str "u") rfl rfl rfl,
    repeated_fields_policy.2.2.2.2.2.2.1 [("emails", Json.arr []),
      ("name", Json.str "n")] rfl rfl⟩

/-- C9 counterexample: the raw key "xcustom.cf1" does not start with the
custom-field prefix "custom.cf", yet because the source tests substring
containment (`"custom.cf" in key`) the transform emits a pair for it. -/
theorem custom_fields_substring_cex :
    customActivitiesTransformRow [("id", Json.str "a"), ("date_created", Json.str "c"),
        ("date_updated", Json.str "u"), ("xcustom.cf1", Json.bool true)]
      = Except.ok [("id", Json.str "a"), ("date_created", Json.str "c"),
        ("date_updated", Json.str "u"), ("lead_id", Json.null), ("user_id", Json.null),
        ("custom_activity_type_id", Json.null), ("_type", Json.null),
        ("status", Json.null),
        ("custom_fields", Json.arr [Json.obj [("key", Json.str "xcustom.cf1"),
          ("value", Json.str "true")]])] ∧
    listPrefixOf "custom.cf".data "xcustom.cf1".data = false ∧
    pyIn "custom.cf" "xcustom.cf1" = true :=
  ⟨rfl, by decide, by decide⟩

/-- C9 (amended): for the custom-field entities (CustomActivities and
Opportunities) the transform emits one `(key, json.dumps value)` pair per
raw entry whose key contains the marker "custom.cf" as a substring — not
only prefix-matching keys — and no pair for any other key; the value is the
JSON-text encoding of the raw value regardless of its original type. -/
theorem custom_fields_emission :
    (∀ (row : Row) (i dc du : Json), row.lookup "id" = some i →
      row.lookup "date_created" = some dc → row.lookup "date_updated" = some du →
      ∃ out, customActivitiesTransformRow row = Except.ok out ∧
        out.lookup "custom_fields" = some (customFieldsOf row)) ∧
    (∀ (row : Row) (i du : Json), row.lookup "id" = some i →
      row.lookup "date_updated" = some du →
      ∃ out, opportunitiesTransformRow row = Except.ok out ∧
        out.lookup "custom_fields" = some (customFieldsOf row)) ∧
    (∀ row : Row, ∃ l, customFieldsOf row = Json.arr l ∧
      (∀ k v, (k, v) ∈ row → pyIn "custom.cf" k = true →
        Json.obj [("key", Json.str k), ("value", Json.str (dumps v))] ∈ l) ∧
      (∀ p ∈ l, ∃ k v, (k, v) ∈ row ∧ pyIn "custom.cf" k = true ∧
        p = Json.obj [("key", Json.str k), ("value", Json.str (dumps v))]) ∧
      l.length = (row.filter (fun kv => pyIn "custom.cf" kv.1)).length) := by
  refine ⟨?_, ?_, ?_⟩
  · intro row i dc du h1 h2 h3
    have hrow : customActivitiesTransformRow row = Except.ok
        [("id", i), ("date_created", dc), ("date_updated", du),
         ("lead_id", pyGet row "lead_id"), ("user_id", pyGet row "user_id"),
         ("custom_activity_type_id", pyGet row "custom_activity_type_id"),
         ("_type", pyGet row "_type"), ("status", pyGet row "status"),
         ("custom_fields", customFieldsOf row)] := by
      simp [customActivitiesTransformRow, pyItem, h1, h2, h3, except_bind_ok]
    exact ⟨_, hrow, by simp [List.lookup]⟩
  · intro row i du h1 h2
    have hrow : opportunitiesTransformRow row = Except.ok
        [("id", i), ("date_updated", du),
         ("updated_by", pyGet row "updated_by"),
         ("created_by", pyGet row "created_by"),
         ("organization_id", pyGet row "organization_id"),
         ("contact_name", pyGet row "contact_name"),
         ("lead_id", pyGet row "lead_id"),
         ("expected_value", pyGet row "expected_value"),
         ("status_display_name", pyGet row "status_display_name"),
         ("date_created", pyGet row "date_created"),
         ("annualized_value", pyGet row "annualized_value"),
         ("status_id", pyGet row "status_id"),
         ("status_type", pyGet row "status_type"),
         ("value", pyGet row "value"),
         ("value_currency", pyGet row "value_currency"),
         ("note", pyGet row "note"),
         ("value_period", pyGet row "value_period"),
         ("status_label", pyGet row "status_label"),
         ("lead_name", pyGet row "lead_name"),
         ("created_by_name", pyGet row "created_by_name"),
         ("updated_by_name", pyGet row "updated_by_name"),
         ("user_name", pyGet row "user_name"),
         ("annualized_expected_value", pyGet row "annualized_expected_value"),
         ("value_formatted", pyGet row "value_formatted"),
         ("user_id", pyGet row "user_id"),
         ("contact_id", pyGet row "contact_id"),
         ("date_won", pyGet row "date_won"),
         ("date_lost", pyGet row "date_lost"),
         ("custom_fields", customFieldsOf row)] := by
      simp [opportunitiesTransformRow, pyItem, h1, h2, except_bind_ok]
    exact ⟨_, hrow, by simp [List.lookup]⟩
  · intro row
    refine ⟨_, rfl, ?_, ?_, ?_⟩
    · intro k v hkv hk
      exact List.mem_map.mpr ⟨(k, v), List.mem_filter.mpr ⟨hkv, hk⟩, rfl⟩
    · intro p hp
      obtain ⟨kv, hkv, rfl⟩ := List.mem_map.mp hp
      have hm := List.mem_filter.mp hkv
      exact ⟨kv.1, kv.2, hm.1, hm.2, rfl⟩
    · exact List.length_map _ _

/-- Witness for C9 at a concrete CustomActivities row carrying one
custom-field key and one plain key. -/
theorem custom_fields_emission_witness :
    ∃ out, customActivitiesTransformRow [("id", Json.str "a"),
        ("date_created", Json.str "c"), ("date_updated", Json.str "u"),
        ("custom.cfZ", Json.num 7), ("plain", Json.num 8)]
      = Except.ok out ∧
      out.lookup "custom_fields" = some (customFieldsOf [("id", Json.str "a"),
        ("date_created", Json.str "c"), ("date_updated", Json.str "u"),
        ("custom.cfZ", Json.num 7), ("plain", Json.num 8)]) :=
  custom_fields_emission.1 [("id", Json.str "a"), ("date_created", Json.str "c"),
    ("date_updated", Json.str "u"), ("custom.cfZ", Json.num 7), ("plain", Json.num 8)]
    (Json.str "a") (Json.str "c") (Json.str "u") rfl rfl rfl

/-!
## Orchestration (`Close.run`, models.py 161-175) and the factory
(`Close.factory`, models.py 113-126)

`run` fetches, reports `num_processed = len(rows)`, attaches the window
when the getter carries truthy `start`/`end` attributes, and only when the
fetch was non-empty transforms, appends to staging (WRITE_APPEND, output
rows of the load job = size of the appended batch) and compacts.  The
fetch result is abstracted as the list of rows the getter returned, the
transform as a function to staged rows.
-/

/-- The run summary dict built by `Close.run`; `end_` carries the source
key "end" (a Lean keyword). -/
structure RunResponse where
  table : String
  num_processed : Nat
  start : Option TVal
  end_ : Option TVal
  output_rows : Option Nat
deriving DecidableEq, Repr

/-- Truthiness of `getattr(self.getter, "start", None)`: the attribute may
be missing (SimpleGetter), None (a null watermark), or a real value. -/
def tvalTruthy : Option TVal → Bool
  | none => false
  | some TVal.null => false
  | some (TVal.date _) => true
  | some (TVal.stamp _) => true

/-- `Close.run`: the fetched rows come from the getter, the response is
assembled, and the transform-load-compact tail runs only when the fetch
returned at least one row. -/
def closeRun (tableName : String) (fetched : List Row)
    (transform : List Row → Except PyError (List SRow))
    (getterStart getterEnd : Option TVal) (t : Tables) :
    Except PyError (RunResponse × Tables) :=
  let withWindow := tvalTruthy getterStart && tvalTruthy getterEnd
  let base : RunResponse :=
    { table := tableName, num_processed := fetched.length,
      start := if withWindow then getterStart else none,
      end_ := if withWindow then getterEnd else none,
      output_rows := none }
  if fetched.length ≠ 0 then do
    let rows ← transform fetched
    let staging2 := t.staging ++ rows
    Except.ok ({ base with output_rows := some rows.length },
      { staging := staging2, canonical := compact staging2 })
  else Except.ok (base, t)

/-- C6: a run whose fetch returns zero rows reports `num_processed = 0`
with no `output_rows`, leaves staging and canonical untouched, and skips
the transform entirely (the result is a success whatever the transform
would have done). -/
theorem run_empty_short_circuit (tableName : String)
    (transform : List Row → Except PyError (List SRow))
    (getterStart getterEnd : Option TVal) (t : Tables) :
    ∃ resp, closeRun tableName [] transform getterStart getterEnd t
        = Except.ok (resp, t) ∧
      resp.num_processed = 0 ∧ resp.output_rows = none := by
  exact ⟨_, rfl, rfl, rfl⟩

/-- The job objects `Close.factory` dispatches to. -/
inductive Job where
  | leads (startv endv : TVal) : Job
  | opportunities (startv endv : TVal) : Job
  | customActivities : Job
  | users : Job
  | customFields : Job
deriving DecidableEq, Repr

/-- The `params` property access performed while constructing an
Opportunities (or Leads) job: `AsyncGetter.__init__` (models.py line 70)
evaluates `self.params = model.params`, and the Opportunities `params`
property (models.py lines 443-444) calls `self.start.strftime(...)` and
then `self.end.strftime(...)`; when the resolved start (or end) is Python
None — the automatic window over an empty canonical table — that raises
AttributeError on NoneType. -/
def opportunitiesParams (startv endv : TVal) : Except PyError Unit :=
  match startv with
  | TVal.null =>
    Except.error (PyError.attributeError "NoneType object has no attribute strftime")
  | _ =>
    match endv with
    | TVal.null =>
      Except.error (PyError.attributeError "NoneType object has no attribute strftime")
    | _ => Except.ok ()

/-- `Close.factory(table, start, end)` (models.py 113-126).  Constructing
`Leads` runs `Leads.__init__`, whose first statement (models.py line 241)
reads `self.get_time_range`; that attribute exists neither on the instance
nor anywhere in the class hierarchy — `get_time_range` is a module-level
function — so CPython raises AttributeError before any window is resolved.
`Opportunities.__init__` calls the module-level `get_time_range` correctly
and then constructs `AsyncGetter(self)`, which evaluates the `params`
property (see `opportunitiesParams`); `CustomActivities`, `Users` and
`CustomFields` take no window and build a `SimpleGetter`, which reads only
the endpoint.  Any other table name raises NotImplementedError. -/
def factory (table : String) (startArg endArg : Option String)
    (queryMaxIncre : Except PyError (Option TVal)) (now : TVal) :
    Except PyError Job :=
  if table == "Leads" then
    Except.error (PyError.attributeError "Leads object has no attribute get_time_range")
  else if table == "Opportunities" then do
    let w ← get_time_range queryMaxIncre startArg endArg now
    let _ ← opportunitiesParams w.1 w.2
    Except.ok (Job.opportunities w.1 w.2)
  else if table == "CustomActivities" then Except.ok Job.customActivities
  else if table == "Users" then Except.ok Job.users
  else if table == "CustomFields" then Except.ok Job.customFields
  else Except.error (PyError.notImplementedError table)

/-- C10 (code bug): the factory recognizes "Leads", yet constructing the
Leads job always raises AttributeError — for any explicit or omitted
bounds and any table state — because `Leads.__init__` reads the
nonexistent attribute `self.get_time_range`; the repository's own test
suite (src/test/test_auto.py) runs table "Leads" and expects construction
to succeed.  Unrecognized names raise NotImplementedError; Users,
CustomActivities and CustomFields construct without error; Opportunities
constructs without error given explicit bounds or a non-empty canonical
table, but with no bounds over an empty table the null watermark start
makes the `params` property raise AttributeError inside
`AsyncGetter.__init__`. -/
theorem factory_leads_attribute_error :
    (∀ (startArg endArg : Option String) (q : Except PyError (Option TVal)) (now : TVal),
      factory "Leads" startArg endArg q now
        = Except.error (PyError.attributeError
            "Leads object has no attribute get_time_range")) ∧
    factory "Leads" (some "2021-08-01") (some "2021-08-31") (Except.ok none) (TVal.stamp 0)
      = Except.error (PyError.attributeError
          "Leads object has no attribute get_time_range") ∧
    factory "Nope" none none (Except.ok none) (TVal.stamp 0)
      = Except.error (PyError.notImplementedError "Nope") ∧
    factory "Users" none none (Except.ok none) (TVal.stamp 0) = Except.ok Job.users ∧
    factory "CustomActivities" none none (Except.ok none) (TVal.stamp 0)
      = Except.ok Job.customActivities ∧
    factory "CustomFields" none none (Except.ok none) (TVal.stamp 0)
      = Except.ok Job.customFields ∧
    factory "Opportunities" (some "2021-08-01") (some "2021-08-31")
        (Except.ok none) (TVal.stamp 0)
      = Except.ok (Job.opportunities (TVal.date ⟨2021, 8, 1⟩) (TVal.date ⟨2021, 8, 31⟩)) ∧
    factory "Opportunities" none none (Except.ok (some (TVal.stamp 4))) (TVal.stamp 9)
      = Except.ok (Job.opportunities (TVal.stamp 4) (TVal.stamp 9)) ∧
    factory "Opportunities" none none (Except.ok none) (TVal.stamp 9)
      = Except.error (PyError.attributeError
          "NoneType object has no attribute strftime") :=
  ⟨fun _ _ _ _ => rfl, rfl, rfl, rfl, rfl, rfl, rfl, rfl, rfl⟩
